import Mathlib

/-
Verification of the market-data collection core of
`adaptive_revenue_growth_engine` (file `MarketDataCollector.py`).

The Python class `MarketDataCollector` holds a pandas DataFrame
`data_collected`; `collect_data` fetches JSON rows from each configured
source over HTTP, turns each successful response into a DataFrame, and
replaces `data_collected` with the concatenation of the successful
frames; `get_latest_price` and `get_historical_data_range` are queries
over `data_collected`.

Embedding choices, each justified against the source:
* A DataFrame of market rows is a `List DataPoint` (row order is
  exactly pandas row order: `pd.concat` stacks the frames in list
  order and never sorts or deduplicates).
* Dates are modelled as naturals (`20240101` standing for the string
  `'2024-01-01'`): the Python code compares the fixed-format
  `'YYYY-MM-DD'` strings with `>=` / `<=`, i.e. lexicographically,
  and on fixed-format digit strings that order coincides with the
  numeric order of the digits, so `Nat` with `≤` is the same linear
  order on the keys.
* Numeric fields (`open`, `high`, `low`, `close`, `volume`) are
  modelled as `Int`: none of the operations under study performs any
  arithmetic on them, they are only stored, selected and returned.
* The network is an explicit oracle `String → FetchOutcome` mapping
  the request URL the code builds to the outcome of `session.get`:
  HTTP 200 with parsed JSON rows, a non-200 status, or a raised
  connection exception.
* `logging.error` calls are accumulated in an explicit `List String`
  so that the error-reporting behaviour is part of the model.
* `self.api_keys` is modelled as a total function `String → String`
  (every configured source is assumed to have a key; a missing key is
  outside the behaviours the verified claims quantify over).
-/

/-- One market-data row: the shape of each record of the JSON array a
source returns (`date, open, high, low, close, volume`). -/
structure DataPoint where
  date : Nat
  open_ : Int
  high : Int
  low : Int
  close : Int
  volume : Int
deriving Repr, DecidableEq

/-- Outcome of `session.get(url)` in `collect_data`: status 200 with a
parsed JSON body, a non-200 status, or an exception while connecting. -/
inductive FetchOutcome where
  | httpOk (rows : List DataPoint)
  | httpError (status : Nat)
  | connError (msg : String)
deriving Repr, DecidableEq

/-- State of a `MarketDataCollector` object: its `api_keys` dict, its
`data_sources` list and the `data_collected` DataFrame. -/
structure MarketDataCollector where
  api_keys : String → String
  data_sources : List String
  data_collected : List DataPoint

/-- The URL `collect_data` builds for one source:
`https://{source}/api/v1/{symbol}/{time_period}?apikey={api_key}`. -/
def buildUrl (source symbol time_period api_key : String) : String :=
  "https://" ++ source ++ "/api/v1/" ++ symbol ++ "/" ++ time_period
    ++ "?apikey=" ++ api_key

/-- The body of the `for source in self.data_sources` loop for one
source: on HTTP 200 the parsed rows are appended to `dataframes`
(first component `some rows`); otherwise nothing is appended and one
`logging.error` line is emitted (second component). -/
def fetchSource (oracle : String → FetchOutcome) (api_keys : String → String)
    (symbol time_period source : String) : Option (List DataPoint) × List String :=
  match oracle (buildUrl source symbol time_period (api_keys source)) with
  | .httpOk rows => (some rows, [])
  | .httpError status =>
      (none, ["Failed to collect data from " ++ source ++ ": HTTP " ++ toString status])
  | .connError msg =>
      (none, ["Error connecting to " ++ source ++ ": " ++ msg])

/-- The whole source loop of `collect_data`: the list `dataframes` of
successful frames in configuration order, and the log lines emitted. -/
def collectLoop (oracle : String → FetchOutcome) (c : MarketDataCollector)
    (symbol time_period : String) : List (List DataPoint) × List String :=
  let results := c.data_sources.map (fetchSource oracle c.api_keys symbol time_period)
  (results.filterMap Prod.fst, (results.map Prod.snd).flatten)

/-- `collect_data(symbol, time_period)`: run the source loop; if no
source produced a frame, raise `ValueError("No data sources returned
valid data")`, which the outer `except` turns into a final log line
and a `None` return, leaving `data_collected` untouched; otherwise set
`data_collected` to `pd.concat(dataframes)` and return it.
Result: (object state after the call, returned value, log lines). -/
def collect_data (oracle : String → FetchOutcome) (c : MarketDataCollector)
    (symbol time_period : String) :
    MarketDataCollector × Option (List DataPoint) × List String :=
  let step := collectLoop oracle c symbol time_period
  if step.1.isEmpty then
    (c, none, step.2 ++ ["Error in collect_data: No data sources returned valid data"])
  else
    let combined := step.1.flatten
    ({ c with data_collected := combined }, some combined, step.2)

/-- `get_latest_price()`: if `data_collected` is non-empty, the `close`
field of its last row (`.iloc[-1]`), else `None`. -/
def get_latest_price (c : MarketDataCollector) : Option Int :=
  match c.data_collected.getLast? with
  | some p => some p.close
  | none => none

/-- `get_historical_data_range(start_date, end_date)`: filter
`data_collected` by `date >= start_date` and `date <= end_date`.  On
the never-assigned empty DataFrame `pd.DataFrame()` the column access
`self.data_collected['date']` raises `KeyError` (the frame has no
columns), which the `except` turns into `None`; every frame actually
assigned by `collect_data` carries the row fields as columns, so on a
non-empty store the filter runs and its (possibly empty) result is
returned. -/
def get_historical_data_range (c : MarketDataCollector)
    (start_date end_date : Nat) : Option (List DataPoint) :=
  match c.data_collected with
  | [] => none
  | _ =>
      some (c.data_collected.filter
        (fun p => decide (start_date ≤ p.date) && decide (p.date ≤ end_date)))

/-- `true` exactly when the fetch for `source` inside `collect_data`
succeeds (HTTP 200 with a parsed body). -/
def fetchOk (oracle : String → FetchOutcome) (api_keys : String → String)
    (symbol time_period source : String) : Bool :=
  match oracle (buildUrl source symbol time_period (api_keys source)) with
  | .httpOk _ => true
  | _ => false

/-- The `logging.error` line a failing source contributes inside the
loop of `collect_data` (meaningless for a succeeding source). -/
def failureLogLine (oracle : String → FetchOutcome) (api_keys : String → String)
    (symbol time_period source : String) : String :=
  match oracle (buildUrl source symbol time_period (api_keys source)) with
  | .httpOk _ => ""
  | .httpError status =>
      "Failed to collect data from " ++ source ++ ": HTTP " ++ toString status
  | .connError msg => "Error connecting to " ++ source ++ ": " ++ msg

/-- The rows one source contributes to the combined frame of
`collect_data`: its parsed body on HTTP 200, nothing otherwise (a
failing source appends no DataFrame). -/
def sourceRows (oracle : String → FetchOutcome) (api_keys : String → String)
    (symbol time_period source : String) : List DataPoint :=
  match oracle (buildUrl source symbol time_period (api_keys source)) with
  | .httpOk rows => rows
  | _ => []

/-- `get_latest_price` as a state transformer: the method body reads
`self.data_collected` and assigns to nothing, so the post-state is the
receiver itself. -/
def get_latest_price_run (c : MarketDataCollector) :
    MarketDataCollector × Option Int :=
  (c, get_latest_price c)

/-- `get_historical_data_range` as a state transformer: the method body
reads `self.data_collected` and assigns to nothing, so the post-state
is the receiver itself. -/
def get_historical_data_range_run (c : MarketDataCollector)
    (start_date end_date : Nat) :
    MarketDataCollector × Option (List DataPoint) :=
  (c, get_historical_data_range c start_date end_date)

/- Concrete fixtures used by witnesses and counterexamples. -/

/-- A sample market row. -/
def pSample : DataPoint := ⟨20240101, 1, 1, 1, 1, 1⟩

/-- An oracle under which every request fails with HTTP 500. -/
def oracleAllFail : String → FetchOutcome := fun _ => .httpError 500

/-- An oracle under which every request succeeds with one sample row. -/
def oracleAlways : String → FetchOutcome := fun _ => .httpOk [pSample]

/-- A collector with three configured sources and one stored row. -/
def cThree : MarketDataCollector :=
  ⟨fun _ => "k", ["alpha.example", "beta.example", "gamma.example"], [pSample]⟩

/-- A freshly constructed collector with a single configured source:
`data_collected` is the empty `pd.DataFrame()`. -/
def cOneSrc : MarketDataCollector := ⟨fun _ => "k", ["src.example"], []⟩

/-- Source `A`'s row of the two-source conflict scenario (close 100 at
2024-01-01). -/
def pA : DataPoint := ⟨20240101, 0, 0, 0, 100, 0⟩

/-- Source `B`'s conflicting row (close 105 at the same 2024-01-01). -/
def pB1 : DataPoint := ⟨20240101, 0, 0, 0, 105, 0⟩

/-- Source `B`'s second row (close 110 at 2024-01-02). -/
def pB2 : DataPoint := ⟨20240102, 0, 0, 0, 110, 0⟩

/-- Oracle of the conflict scenario: source `A` returns `[pA]`, source
`B` returns `[pB1, pB2]`, with both timestamps 2024-01-01 colliding. -/
def oracleAB : String → FetchOutcome := fun url =>
  if url = "https://A/api/v1/AAPL/1D?apikey=k" then .httpOk [pA]
  else if url = "https://B/api/v1/AAPL/1D?apikey=k" then .httpOk [pB1, pB2]
  else .connError "unreachable"

/-- Collector configured with sources `A` before `B`. -/
def cAB : MarketDataCollector := ⟨fun _ => "k", ["A", "B"], []⟩

/-- A row dated 2024-01-02 whose close is 1. -/
def pNew : DataPoint := ⟨20240102, 0, 0, 0, 1, 0⟩

/-- A row dated 2024-01-01 whose close is 2. -/
def pOld : DataPoint := ⟨20240101, 0, 0, 0, 2, 0⟩

/-- An oracle whose single source delivers its rows newest-first, as an
API free to order its JSON array any way may do. -/
def oracleNewestFirst : String → FetchOutcome := fun _ => .httpOk [pNew, pOld]

/-- The collector state reached from `cOneSrc` by one successful
`collect_data` call whose rows arrived newest-first. -/
def cNewestFirst : MarketDataCollector :=
  (collect_data oracleNewestFirst cOneSrc "AAPL" "1D").1

/-- An oracle delivering a single row dated 2024-01-02. -/
def oracleOneRow : String → FetchOutcome := fun _ => .httpOk [⟨20240102, 0, 0, 0, 5, 0⟩]

/-- The collector state reached from `cOneSrc` by one successful
`collect_data` call storing exactly the row dated 2024-01-02. -/
def cOneRow : MarketDataCollector :=
  (collect_data oracleOneRow cOneSrc "AAPL" "1D").1

/-- Oracle under which exactly the source `beta.example` fails (with a
connection timeout) while every other request succeeds. -/
def oracleBetaFails : String → FetchOutcome := fun url =>
  if url = "https://beta.example/api/v1/AAPL/1D?apikey=k" then .connError "timeout"
  else .httpOk [pSample]

/-- A source that fails under `fetchOk` yields no frame and exactly its
one `logging.error` line. -/
theorem fetchSource_not_ok (oracle : String → FetchOutcome) (api_keys : String → String)
    (symbol time_period source : String)
    (h : fetchOk oracle api_keys symbol time_period source = false) :
    fetchSource oracle api_keys symbol time_period source
      = (none, [failureLogLine oracle api_keys symbol time_period source]) := by
  unfold fetchOk at h
  unfold fetchSource failureLogLine
  cases ho : oracle (buildUrl source symbol time_period (api_keys source)) with
  | httpOk rows => rw [ho] at h; exact absurd h (by simp)
  | httpError status => rfl
  | connError msg => rfl

/-- A source that succeeds under `fetchOk` yields its parsed rows as a
frame and no log line. -/
theorem fetchSource_ok (oracle : String → FetchOutcome) (api_keys : String → String)
    (symbol time_period source : String)
    (h : fetchOk oracle api_keys symbol time_period source = true) :
    ∃ rows, fetchSource oracle api_keys symbol time_period source = (some rows, []) := by
  unfold fetchOk at h
  unfold fetchSource
  cases ho : oracle (buildUrl source symbol time_period (api_keys source)) with
  | httpOk rows => exact ⟨rows, rfl⟩
  | httpError status => rw [ho] at h; exact absurd h (by simp)
  | connError msg => rw [ho] at h; exact absurd h (by simp)

/-- The concatenated frames of the loop of `collect_data` are exactly
each configured source's contributed rows, flattened in configuration
order. -/
theorem loop_flatten_rows (oracle : String → FetchOutcome) (keys : String → String)
    (symbol time_period : String) (l : List String) :
    ((l.map (fetchSource oracle keys symbol time_period)).filterMap Prod.fst).flatten
      = (l.map (sourceRows oracle keys symbol time_period)).flatten := by
  induction l with
  | nil => rfl
  | cons a t ih =>
      simp only [List.filterMap_map] at ih
      simp only [List.map_cons, List.filterMap_cons]
      cases ho : oracle (buildUrl a symbol time_period (keys a)) with
      | httpOk rows =>
          have h1 : fetchSource oracle keys symbol time_period a = (some rows, []) := by
            unfold fetchSource; rw [ho]
          have h2 : sourceRows oracle keys symbol time_period a = rows := by
            unfold sourceRows; rw [ho]
          rw [h1, h2]
          simp [ih]
      | httpError status =>
          have h1 : (fetchSource oracle keys symbol time_period a).1 = none := by
            unfold fetchSource; rw [ho]
          have h2 : sourceRows oracle keys symbol time_period a = [] := by
            unfold sourceRows; rw [ho]
          rw [h2]
          simp [h1, ih]
      | connError msg =>
          have h1 : (fetchSource oracle keys symbol time_period a).1 = none := by
            unfold fetchSource; rw [ho]
          have h2 : sourceRows oracle keys symbol time_period a = [] := by
            unfold sourceRows; rw [ho]
          rw [h2]
          simp [h1, ih]

/-- Row multiplicity at a timestamp distributes over a flattened list
of frames: the flattened frame holds as many rows dated `t` as the
per-frame counts sum to. -/
theorem filter_length_flatten (L : List (List DataPoint)) (t : Nat) :
    ((L.flatten).filter (fun p => p.date == t)).length
      = (L.map (fun rows => (rows.filter (fun p => p.date == t)).length)).sum := by
  induction L with
  | nil => rfl
  | cons rows rest ih =>
      simp only [List.flatten_cons, List.filter_append, List.length_append,
        List.map_cons, List.sum_cons, ih]

/-- Over a source list in which every fetch fails, the loop of
`collect_data` collects no frame and logs exactly one line per source,
in configuration order. -/
theorem loop_all_failed (oracle : String → FetchOutcome) (keys : String → String)
    (symbol time_period : String) (l : List String)
    (h : ∀ s ∈ l, fetchOk oracle keys symbol time_period s = false) :
    (l.map (fetchSource oracle keys symbol time_period)).filterMap Prod.fst = [] ∧
    ((l.map (fetchSource oracle keys symbol time_period)).map Prod.snd).flatten
      = l.map (failureLogLine oracle keys symbol time_period) := by
  induction l with
  | nil => exact ⟨rfl, rfl⟩
  | cons a t ih =>
      have ha := fetchSource_not_ok oracle keys symbol time_period a
        (h a (List.mem_cons_self a t))
      obtain ⟨ht1, ht2⟩ := ih (fun s hs => h s (List.mem_cons_of_mem a hs))
      have ht2c : (List.map (Prod.snd ∘ fetchSource oracle keys symbol time_period) t).flatten
          = List.map (failureLogLine oracle keys symbol time_period) t := by
        rw [← List.map_map]; exact ht2
      simp [ha, ht1, ht2c]

/-- The loop of `collect_data` reads only `api_keys` and
`data_sources`, never `data_collected`. -/
theorem collectLoop_set_store (oracle : String → FetchOutcome) (c : MarketDataCollector)
    (symbol time_period : String) (d : List DataPoint) :
    collectLoop oracle { c with data_collected := d } symbol time_period
      = collectLoop oracle c symbol time_period := rfl

/-- Claim C1: when every configured source fails, `collect_data` fails
(raising `ValueError("No data sources returned valid data")` and
returning `None`), its log reports each per-source failure in order
followed by the aggregate failure line, and `data_collected` is exactly
what it was before the call. -/
theorem collect_data_total_failure (oracle : String → FetchOutcome)
    (c : MarketDataCollector) (symbol time_period : String)
    (h : ∀ source ∈ c.data_sources,
      fetchOk oracle c.api_keys symbol time_period source = false) :
    (collect_data oracle c symbol time_period).1.data_collected = c.data_collected ∧
    (collect_data oracle c symbol time_period).2.1 = none ∧
    (collect_data oracle c symbol time_period).2.2 =
      c.data_sources.map (failureLogLine oracle c.api_keys symbol time_period)
        ++ ["Error in collect_data: No data sources returned valid data"] := by
  have hl := loop_all_failed oracle c.api_keys symbol time_period c.data_sources h
  have hl2c : (List.map (Prod.snd ∘ fetchSource oracle c.api_keys symbol time_period)
        c.data_sources).flatten
      = List.map (failureLogLine oracle c.api_keys symbol time_period) c.data_sources := by
    rw [← List.map_map]; exact hl.2
  unfold collect_data collectLoop
  simp [hl.1, hl2c]

/-- Witness for C1: the three-source scenario in which every source
fails with HTTP 500 against a store already holding one row. -/
theorem collect_data_total_failure_witness :
    (∀ source ∈ cThree.data_sources,
      fetchOk oracleAllFail cThree.api_keys "AAPL" "1D" source = false) ∧
    ((collect_data oracleAllFail cThree "AAPL" "1D").1.data_collected
        = cThree.data_collected ∧
      (collect_data oracleAllFail cThree "AAPL" "1D").2.1 = none ∧
      (collect_data oracleAllFail cThree "AAPL" "1D").2.2 =
        cThree.data_sources.map (failureLogLine oracleAllFail cThree.api_keys "AAPL" "1D")
          ++ ["Error in collect_data: No data sources returned valid data"]) :=
  ⟨by decide, collect_data_total_failure oracleAllFail cThree "AAPL" "1D" (by decide)⟩

/-- Claim C3: running the merge (the `collect_data` assignment of the
concatenated frames) a second time with the same inputs leaves the
store exactly as after the first run, for every oracle, collector and
input — duplicate timestamps included. -/
theorem collect_data_merge_idempotent (oracle : String → FetchOutcome)
    (c : MarketDataCollector) (symbol time_period : String) :
    (collect_data oracle
        (collect_data oracle c symbol time_period).1 symbol time_period).1.data_collected
      = (collect_data oracle c symbol time_period).1.data_collected := by
  by_cases h : (collectLoop oracle c symbol time_period).1.isEmpty
  · simp [collect_data, h]
  · simp [collect_data, collectLoop_set_store, h]

/-- Claim C9: the read-only queries `get_latest_price` and
`get_historical_data_range` never modify `data_collected`. -/
theorem queries_preserve_store (c : MarketDataCollector) (a b : Nat) :
    (get_latest_price_run c).1.data_collected = c.data_collected ∧
    (get_historical_data_range_run c a b).1.data_collected = c.data_collected :=
  ⟨rfl, rfl⟩

/-- Claim C10: with no configured sources, `collect_data` returns
`None`, leaves the state untouched, logs only the aggregate failure
line, and consults no source: the outcome is the same under every
oracle. -/
theorem collect_data_no_sources (oracle oracle2 : String → FetchOutcome)
    (api_keys : String → String) (store : List DataPoint)
    (symbol time_period : String) :
    collect_data oracle ⟨api_keys, [], store⟩ symbol time_period
      = (⟨api_keys, [], store⟩, none,
          ["Error in collect_data: No data sources returned valid data"]) ∧
    collect_data oracle ⟨api_keys, [], store⟩ symbol time_period
      = collect_data oracle2 ⟨api_keys, [], store⟩ symbol time_period :=
  ⟨rfl, rfl⟩

/-- Claim C2 counterexample: in the two-source conflict scenario the
combined series holds TWO rows dated 2024-01-01 — source `B`'s
conflicting row is not discarded, because `pd.concat` performs no
per-timestamp deduplication — refuting "the merged TimeSeries contains
exactly one point at that timestamp". -/
theorem collect_data_merge_conflict_counterexample :
    (collect_data oracleAB cAB "AAPL" "1D").2.1 = some [pA, pB1, pB2] ∧
    ((collect_data oracleAB cAB "AAPL" "1D").1.data_collected.filter
        (fun p => p.date == 20240101)).length = 2 := by decide

/-- Claim C2 amended: for every configuration and every call in which
at least one source succeeds, the merged series is the concatenation,
in configured-source order, of the rows each source contributed (its
parsed body on success, nothing on failure) — so the earliest-listed
source's rows come first — and for every timestamp the merged series
holds as many rows at that timestamp as all sources together reported:
conflicting timestamps are all kept, with no deduplication or
preference. -/
theorem collect_data_merge_concat (oracle : String → FetchOutcome)
    (keys : String → String) (store : List DataPoint) (sources : List String)
    (symbol time_period : String)
    (h : ∃ s ∈ sources, fetchOk oracle keys symbol time_period s = true) :
    (collect_data oracle ⟨keys, sources, store⟩ symbol time_period).2.1
      = some ((sources.map (sourceRows oracle keys symbol time_period)).flatten) ∧
    (collect_data oracle ⟨keys, sources, store⟩ symbol time_period).1.data_collected
      = (sources.map (sourceRows oracle keys symbol time_period)).flatten ∧
    ∀ t : Nat,
      ((collect_data oracle ⟨keys, sources, store⟩ symbol
          time_period).1.data_collected.filter (fun p => p.date == t)).length
        = (sources.map (fun s =>
            ((sourceRows oracle keys symbol time_period s).filter
              (fun p => p.date == t)).length)).sum := by
  have hcond : ¬ ∀ a ∈ sources, (fetchSource oracle keys symbol time_period a).1 = none := by
    rcases h with ⟨s, hs, hok⟩
    obtain ⟨rows, hr⟩ := fetchSource_ok oracle keys symbol time_period s hok
    intro hall
    have hcon := hall s hs
    rw [hr] at hcon
    simp at hcon
  have hfl := loop_flatten_rows oracle keys symbol time_period sources
  simp only [List.filterMap_map] at hfl
  have hres : (collect_data oracle ⟨keys, sources, store⟩ symbol time_period).2.1
      = some ((sources.map (sourceRows oracle keys symbol time_period)).flatten) := by
    unfold collect_data collectLoop
    simp [hcond, hfl]
  have hdata : (collect_data oracle ⟨keys, sources, store⟩ symbol
      time_period).1.data_collected
      = (sources.map (sourceRows oracle keys symbol time_period)).flatten := by
    unfold collect_data collectLoop
    simp [hcond, hfl]
  refine ⟨hres, hdata, ?_⟩
  intro t
  rw [hdata, filter_length_flatten, List.map_map]
  rfl

/-- Witness for the amended C2: three configured sources under the
conflict oracle — `A` and `B` succeed with a colliding 2024-01-01
timestamp, `C` fails — exercising both a failing source and more than
two configured sources. -/
theorem collect_data_merge_concat_witness :
    (∃ s ∈ ["A", "B", "C"], fetchOk oracleAB cAB.api_keys "AAPL" "1D" s = true) ∧
    ((collect_data oracleAB ⟨cAB.api_keys, ["A", "B", "C"], []⟩ "AAPL" "1D").2.1
        = some ((["A", "B", "C"].map
            (sourceRows oracleAB cAB.api_keys "AAPL" "1D")).flatten) ∧
      (collect_data oracleAB
          ⟨cAB.api_keys, ["A", "B", "C"], []⟩ "AAPL" "1D").1.data_collected
        = (["A", "B", "C"].map (sourceRows oracleAB cAB.api_keys "AAPL" "1D")).flatten ∧
      ∀ t : Nat,
        ((collect_data oracleAB ⟨cAB.api_keys, ["A", "B", "C"], []⟩ "AAPL"
            "1D").1.data_collected.filter (fun p => p.date == t)).length
          = (["A", "B", "C"].map (fun s =>
              ((sourceRows oracleAB cAB.api_keys "AAPL" "1D" s).filter
                (fun p => p.date == t)).length)).sum) :=
  ⟨by decide,
    collect_data_merge_concat oracleAB cAB.api_keys [] ["A", "B", "C"]
      "AAPL" "1D" (by decide)⟩

/-- Claim C4 counterexample: after one successful collection whose rows
arrived newest-first, `get_latest_price` returns the close of the LAST
row (2, dated 2024-01-01) although the greatest stored timestamp is
2024-01-02, whose close is 1 — refuting "returns the point whose
timestamp is the greatest". -/
theorem get_latest_price_counterexample :
    cNewestFirst.data_collected = [pNew, pOld] ∧
    get_latest_price cNewestFirst = some 2 ∧
    (∀ p ∈ cNewestFirst.data_collected, p.date ≤ 20240102) ∧
    (∀ p ∈ cNewestFirst.data_collected, p.date = 20240102 → p.close = 1) ∧
    (2 : Int) ≠ 1 := by decide

/-- Claim C4 amended: `get_latest_price` returns `None` on an empty
store, and on a non-empty store the close of the last row in stored
(insertion) order — which is the row of greatest timestamp only if the
rows happen to be date-ascending; after merging exactly one point it
returns that point's close. -/
theorem get_latest_price_last_row (c : MarketDataCollector) :
    (c.data_collected = [] → get_latest_price c = none) ∧
    ∀ (ps : List DataPoint) (p : DataPoint), c.data_collected = ps ++ [p] →
      get_latest_price c = some p.close := by
  constructor
  · intro h
    unfold get_latest_price
    rw [h]
    rfl
  · intro ps p h
    unfold get_latest_price
    rw [h, List.getLast?_concat]

/-- Witness for the amended C4: a never-merged store yields `None`; a
store holding exactly one merged row yields that row's close. -/
theorem get_latest_price_last_row_witness :
    get_latest_price cOneSrc = none ∧
    get_latest_price cOneRow = some 5 :=
  ⟨(get_latest_price_last_row cOneSrc).1 rfl,
    (get_latest_price_last_row cOneRow).2 [] ⟨20240102, 0, 0, 0, 5, 0⟩ rfl⟩

/-- Claim C5 counterexample: with an inverted range (start 2024-01-03 >
end 2024-01-01) on a populated store, `get_historical_data_range`
returns the empty frame as a SUCCESS value, not any error — refuting
"fails with `InvalidRange`". -/
theorem range_inverted_counterexample :
    20240101 < 20240103 ∧
    get_historical_data_range cOneRow 20240103 20240101 = some [] := by decide

/-- Claim C5 amended: no range validation exists: on a non-empty store
an inverted range returns the empty sequence (a success), and a
degenerate range `[a, a]` returns exactly the stored points dated `a`. -/
theorem range_no_validation (c : MarketDataCollector) (a b : Nat)
    (h : c.data_collected ≠ []) :
    (b < a → get_historical_data_range c a b = some []) ∧
    get_historical_data_range c a a
      = some (c.data_collected.filter (fun p => decide (p.date = a))) := by
  have hfilter : ∀ d : Nat, (decide (a ≤ d) && decide (d ≤ a)) = decide (d = a) := by
    intro d
    by_cases hda : d = a
    · subst hda
      simp
    · have hd1 : decide (d = a) = false := by simp [hda]
      rw [hd1]
      by_cases hle : a ≤ d
      · have hgt : ¬ d ≤ a := by omega
        simp [hgt]
      · simp [hle]
  constructor
  · intro hba
    unfold get_historical_data_range
    cases hd : c.data_collected with
    | nil => exact absurd hd h
    | cons q t =>
        simp only [Option.some.injEq]
        rw [List.filter_eq_nil_iff]
        intro p hp
        simp only [Bool.and_eq_true, decide_eq_true_eq, not_and]
        intro h1 h2
        omega
  · unfold get_historical_data_range
    cases hd : c.data_collected with
    | nil => exact absurd hd h
    | cons q t =>
        simp only [Option.some.injEq]
        exact List.filter_congr (fun p _ => hfilter p.date)

/-- Witness for the amended C5: the populated one-row store. -/
theorem range_no_validation_witness :
    cOneRow.data_collected ≠ [] ∧
    ((20240101 < 20240103 →
        get_historical_data_range cOneRow 20240103 20240101 = some []) ∧
      get_historical_data_range cOneRow 20240103 20240103
        = some (cOneRow.data_collected.filter (fun p => decide (p.date = 20240103)))) :=
  ⟨by decide, range_no_validation cOneRow 20240103 20240101 (by decide)⟩

/-- Claim C6 counterexample: on a never-merged store a valid range
query returns `None` (the empty `pd.DataFrame()` has no `date` column,
so the filter raises `KeyError` and the handler returns `None`) — not
the empty sequence the claim requires. -/
theorem range_empty_store_counterexample :
    20240101 ≤ 20240102 ∧
    cOneSrc.data_collected = [] ∧
    get_historical_data_range cOneSrc 20240101 20240102 = none := by decide

/-- Claim C6 amended: on a NON-EMPTY store, a range query returns the
stored points with timestamps inclusively between the bounds, and the
empty sequence (not an error) when none fall within them; a never-merged
store instead yields `None`. -/
theorem range_inclusive_bounds (c : MarketDataCollector) (a b : Nat)
    (h : c.data_collected ≠ []) :
    ∃ l, get_historical_data_range c a b = some l ∧
      (∀ p, p ∈ l ↔ p ∈ c.data_collected ∧ a ≤ p.date ∧ p.date ≤ b) ∧
      ((∀ p ∈ c.data_collected, ¬(a ≤ p.date ∧ p.date ≤ b)) → l = []) := by
  refine ⟨c.data_collected.filter
      (fun p => decide (a ≤ p.date) && decide (p.date ≤ b)), ?_, ?_, ?_⟩
  · unfold get_historical_data_range
    cases hd : c.data_collected with
    | nil => exact absurd hd h
    | cons q t => rfl
  · intro p
    simp [List.mem_filter]
  · intro hnone
    rw [List.filter_eq_nil_iff]
    intro p hp
    simp only [Bool.and_eq_true, decide_eq_true_eq]
    exact hnone p hp

/-- Witness for the amended C6: a bounded query on the populated
one-row store, with bounds that no stored point satisfies. -/
theorem range_inclusive_bounds_witness :
    cOneRow.data_collected ≠ [] ∧
    ∃ l, get_historical_data_range cOneRow 20240110 20240120 = some l ∧
      (∀ p, p ∈ l ↔ p ∈ cOneRow.data_collected ∧ 20240110 ≤ p.date ∧ p.date ≤ 20240120) ∧
      ((∀ p ∈ cOneRow.data_collected, ¬(20240110 ≤ p.date ∧ p.date ≤ 20240120)) → l = []) :=
  ⟨by decide, range_inclusive_bounds cOneRow 20240110 20240120 (by decide)⟩

/-- Claim C7 counterexample: with an empty symbol and a period outside
any recognized set, `collect_data` performs the fetch anyway and
succeeds with the fetched rows — refuting "fails with `InvalidPeriod`
before any source fetch". -/
theorem collect_data_no_validation_counterexample :
    (collect_data oracleAlways cOneSrc "" "NOT_A_PERIOD").2.1 = some [pSample] ∧
    (collect_data oracleAlways cOneSrc "" "NOT_A_PERIOD").1.data_collected = [pSample] ∧
    (collect_data oracleAlways cOneSrc "" "NOT_A_PERIOD").2.2 = [] := by decide

/-- Claim C7 amended: `collect_data` validates neither `symbol` nor
`time_period`: for every symbol (the empty string included) and every
period string, the strings are interpolated into the request URL and
the fetch is attempted; a successful response is merged and returned. -/
theorem collect_data_accepts_any_input (oracle : String → FetchOutcome)
    (keys : String → String) (store rows : List DataPoint)
    (source symbol time_period : String)
    (h : oracle (buildUrl source symbol time_period (keys source)) = .httpOk rows) :
    (collect_data oracle ⟨keys, [source], store⟩ symbol time_period).2.1 = some rows ∧
    (collect_data oracle ⟨keys, [source], store⟩ symbol time_period).1.data_collected
      = rows := by
  unfold collect_data collectLoop fetchSource
  simp [h]

/-- Witness for the amended C7: empty symbol, garbage period. -/
theorem collect_data_accepts_any_input_witness :
    oracleAlways (buildUrl "src.example" "" "NOT_A_PERIOD" (cOneSrc.api_keys "src.example"))
      = FetchOutcome.httpOk [pSample] ∧
    ((collect_data oracleAlways ⟨cOneSrc.api_keys, ["src.example"], []⟩ "" "NOT_A_PERIOD").2.1
        = some [pSample] ∧
      (collect_data oracleAlways
          ⟨cOneSrc.api_keys, ["src.example"], []⟩ "" "NOT_A_PERIOD").1.data_collected
        = [pSample]) :=
  ⟨by decide,
    collect_data_accepts_any_input oracleAlways cOneSrc.api_keys [] [pSample]
      "src.example" "" "NOT_A_PERIOD" (by decide)⟩

/-- Claim C8: a failing source is recorded as its per-source failed
outcome (no frame, exactly one `logging.error` line) and is otherwise
inert: the frames collected are exactly those of the remaining sources
before and after it, and the post-state and returned value equal those
of the same call without the failing source configured. -/
theorem collect_data_source_failure_isolated (oracle : String → FetchOutcome)
    (keys : String → String) (store : List DataPoint)
    (pre post : List String) (s symbol time_period : String)
    (h : fetchOk oracle keys symbol time_period s = false) :
    fetchSource oracle keys symbol time_period s
      = (none, [failureLogLine oracle keys symbol time_period s]) ∧
    (collectLoop oracle ⟨keys, pre ++ s :: post, store⟩ symbol time_period).1
      = (collectLoop oracle ⟨keys, pre, store⟩ symbol time_period).1
        ++ (collectLoop oracle ⟨keys, post, store⟩ symbol time_period).1 ∧
    (collect_data oracle ⟨keys, pre ++ s :: post, store⟩ symbol time_period).1.data_collected
      = (collect_data oracle ⟨keys, pre ++ post, store⟩ symbol time_period).1.data_collected ∧
    (collect_data oracle ⟨keys, pre ++ s :: post, store⟩ symbol time_period).2.1
      = (collect_data oracle ⟨keys, pre ++ post, store⟩ symbol time_period).2.1 := by
  have hs := fetchSource_not_ok oracle keys symbol time_period s h
  have key : (collectLoop oracle ⟨keys, pre ++ s :: post, store⟩ symbol time_period).1
      = (collectLoop oracle ⟨keys, pre, store⟩ symbol time_period).1
        ++ (collectLoop oracle ⟨keys, post, store⟩ symbol time_period).1 := by
    simp [collectLoop, List.map_append, List.filterMap_append, hs]
  have key2 : (collectLoop oracle ⟨keys, pre ++ post, store⟩ symbol time_period).1
      = (collectLoop oracle ⟨keys, pre, store⟩ symbol time_period).1
        ++ (collectLoop oracle ⟨keys, post, store⟩ symbol time_period).1 := by
    simp [collectLoop, List.map_append, List.filterMap_append]
  have hcond := key.trans key2.symm
  refine ⟨hs, key, ?_, ?_⟩
  · by_cases hc :
      (collectLoop oracle ⟨keys, pre ++ post, store⟩ symbol time_period).1.isEmpty
    · simp [collect_data, hcond, hc]
    · simp [collect_data, hcond, hc]
  · by_cases hc :
      (collectLoop oracle ⟨keys, pre ++ post, store⟩ symbol time_period).1.isEmpty
    · simp [collect_data, hcond, hc]
    · simp [collect_data, hcond, hc]

/-- Witness for C8: `beta.example` times out between two succeeding
sources, against a store holding one row. -/
theorem collect_data_source_failure_isolated_witness :
    fetchOk oracleBetaFails cThree.api_keys "AAPL" "1D" "beta.example" = false ∧
    (fetchSource oracleBetaFails cThree.api_keys "AAPL" "1D" "beta.example"
        = (none, [failureLogLine oracleBetaFails cThree.api_keys "AAPL" "1D" "beta.example"]) ∧
      (collectLoop oracleBetaFails
          ⟨cThree.api_keys, ["alpha.example", "beta.example", "gamma.example"], [pSample]⟩
          "AAPL" "1D").1
        = (collectLoop oracleBetaFails ⟨cThree.api_keys, ["alpha.example"], [pSample]⟩
            "AAPL" "1D").1
          ++ (collectLoop oracleBetaFails ⟨cThree.api_keys, ["gamma.example"], [pSample]⟩
              "AAPL" "1D").1 ∧
      (collect_data oracleBetaFails
          ⟨cThree.api_keys, ["alpha.example", "beta.example", "gamma.example"], [pSample]⟩
          "AAPL" "1D").1.data_collected
        = (collect_data oracleBetaFails
            ⟨cThree.api_keys, ["alpha.example", "gamma.example"], [pSample]⟩
            "AAPL" "1D").1.data_collected ∧
      (collect_data oracleBetaFails
          ⟨cThree.api_keys, ["alpha.example", "beta.example", "gamma.example"], [pSample]⟩
          "AAPL" "1D").2.1
        = (collect_data oracleBetaFails
            ⟨cThree.api_keys, ["alpha.example", "gamma.example"], [pSample]⟩
            "AAPL" "1D").2.1) :=
  ⟨by decide,
    collect_data_source_failure_isolated oracleBetaFails cThree.api_keys [pSample]
      ["alpha.example"] ["gamma.example"] "beta.example" "AAPL" "1D" (by decide)⟩
